import Mathlib

/-!
Verification of the SwellSense multi-source forecast aggregator against its
specification. The definitions below are a shallow embedding of the Python
source: `backend/routers/forecast.py` (the `/api/forecast/global` aggregation
endpoint, the `/api/forecast/debug` statistics helpers `calculate_stats` and
`find_outliers`, and the `/api/forecast/health` endpoint),
`backend/utils/fetch_openmeteo.py` (the per-cell TTL cache), and
`backend/scheduler.py` (the ingestion scheduler). Numbers are embedded as
rationals; remote I/O and `math.sqrt` are passed in as explicit parameters so
that every definition stays executable.
-/
namespace SwellSense

/-! ## Python numeric helpers -/

/-- Python built-in `round(x)` to the nearest integer, ties to even
(banker's rounding). -/
def pyRoundInt (x : ℚ) : ℤ :=
  let n := ⌊x⌋
  if x - n < 1/2 then n
  else if 1/2 < x - n then n + 1
  else if n % 2 = 0 then n else n + 1

/-- Python `round(x, d)`: round half-to-even at `d` decimal digits. -/
def pyRound (x : ℚ) (d : ℕ) : ℚ := (pyRoundInt (x * 10 ^ d) : ℚ) / 10 ^ d

/-- Python `int(x)`: truncation toward zero. -/
def pyInt (x : ℚ) : ℤ := if 0 ≤ x then ⌊x⌋ else ⌈x⌉

/-- Arithmetic mean `sum(values) / len(values)` (0 on the empty list, which the
code never computes). -/
def mean (l : List ℚ) : ℚ := l.sum / l.length

/-- Python truthiness of an optional numeric field read with `data.get(key)`:
`None` and `0.0` are falsy, every other number is truthy. Used by the summary
collection at forecast.py lines 236-261, for example
`if stormglass_data.get("wave_height_m"):`. -/
def truthyVal (o : Option ℚ) : Option ℚ :=
  match o with
  | none => none
  | some v => if v = 0 then none else some v

/-! ## Data model of the nine provider adapters

The four regional adapters (`fetch_stormglass`, `fetch_openweather`,
`fetch_worldtides`, `fetch_metno` in `backend/utils/api_clients.py`) return a
non-empty dict on success and `None` on any transport, HTTP or parse error;
their dicts never carry an `available` key. The five global-model adapters
(`fetch_noaa_erddap`, `fetch_noaa_gfs`, `fetch_era5`, `fetch_openmeteo`,
`fetch_copernicus`) return dicts that always carry an `available` key, or
`None`. Only the fields that `get_global_forecast` reads are modelled; fields a
given adapter never produces are simply `none` at call sites. -/

/-- Observation dict of a regional adapter (stormglass, openweather,
worldtides, metno). -/
structure Regional where
  wave_height_m : Option ℚ := none
  wind_speed_ms : Option ℚ := none
  temperature_c : Option ℚ := none
  current_tide_m : Option ℚ := none
deriving DecidableEq

/-- Observation dict of a global-model adapter (noaa_erddap, noaa_gfs, era5,
openmeteo, copernicus_marine), with its `available` flag. -/
structure GlobalModel where
  wave_height_m : Option ℚ := none
  wind_speed_ms : Option ℚ := none
  available : Bool := true
deriving DecidableEq

/-- Outcome of one adapter call inside `asyncio.gather(...,
return_exceptions=True)`: either a raised exception, or the value the adapter
returned (a dict, or `None`). -/
abbrev FetchResult (α : Type) := Except Unit (Option α)

/-- The nine gathered adapter outcomes of `get_global_forecast`
(forecast.py lines 158-169), in the gather order. -/
structure FetchOutcomes where
  stormglass : FetchResult Regional
  openweather : FetchResult Regional
  worldtides : FetchResult Regional
  metno : FetchResult Regional
  noaa_erddap : FetchResult GlobalModel
  noaa_gfs : FetchResult GlobalModel
  era5 : FetchResult GlobalModel
  openmeteo : FetchResult GlobalModel
  copernicus : FetchResult GlobalModel

/-- Unpacking step of forecast.py lines 172-180:
`results[i] if not isinstance(results[i], Exception) else None`. -/
def unpackResult {α : Type} (r : FetchResult α) : Option α :=
  match r with
  | .error _ => none
  | .ok v => v

/-- The nine unpacked per-source values (`stormglass_data`, ... in the code). -/
structure Unpacked where
  stormglass : Option Regional
  openweather : Option Regional
  worldtides : Option Regional
  metno : Option Regional
  noaa_erddap : Option GlobalModel
  noaa_gfs : Option GlobalModel
  era5 : Option GlobalModel
  openmeteo : Option GlobalModel
  copernicus : Option GlobalModel

/-- Unpack all nine gather results. -/
def unpackAll (inp : FetchOutcomes) : Unpacked :=
  { stormglass := unpackResult inp.stormglass
    openweather := unpackResult inp.openweather
    worldtides := unpackResult inp.worldtides
    metno := unpackResult inp.metno
    noaa_erddap := unpackResult inp.noaa_erddap
    noaa_gfs := unpackResult inp.noaa_gfs
    era5 := unpackResult inp.era5
    openmeteo := unpackResult inp.openmeteo
    copernicus := unpackResult inp.copernicus }

/-- Availability test for a regional source (forecast.py lines 186-204):
`if stormglass_data:` - Python truthiness of the dict, which is non-empty in
every successful return path, so this is presence. -/
def regionalOk (d : Option Regional) : Bool := d.isSome

/-- Availability test for a global-model source (forecast.py lines 206-229):
`if data and data.get("available") is not False:`. -/
def modelOk (d : Option GlobalModel) : Bool :=
  match d with
  | none => false
  | some m => m.available

/-- The nine source names in the order the code classifies them. -/
def providerNames : List String :=
  ["stormglass", "openweather", "worldtides", "metno", "noaa_erddap",
   "noaa_gfs", "era5", "openmeteo", "copernicus_marine"]

/-- Each source paired with its availability flag, in code order
(forecast.py lines 182-229). -/
def availFlags (u : Unpacked) : List (String × Bool) :=
  [("stormglass", regionalOk u.stormglass),
   ("openweather", regionalOk u.openweather),
   ("worldtides", regionalOk u.worldtides),
   ("metno", regionalOk u.metno),
   ("noaa_erddap", modelOk u.noaa_erddap),
   ("noaa_gfs", modelOk u.noaa_gfs),
   ("era5", modelOk u.era5),
   ("openmeteo", modelOk u.openmeteo),
   ("copernicus_marine", modelOk u.copernicus)]

/-- The `sources_available` list: the sequential if/else appends of
forecast.py lines 182-229 produce exactly the available names in code order. -/
def sourcesAvailable (u : Unpacked) : List String :=
  ((availFlags u).filter fun p => p.2).map Prod.fst

/-- The `sources_failed` list built by the same if/else chain. -/
def sourcesFailed (u : Unpacked) : List String :=
  ((availFlags u).filter fun p => !p.2).map Prod.fst

/-! ## Summary metric collection (forecast.py lines 232-261) -/

/-- The `wave_heights` list: truthy `wave_height_m` values of stormglass,
metno, noaa_erddap, noaa_gfs, era5 and openmeteo, in code order. -/
def wave_heights (u : Unpacked) : List ℚ :=
  (truthyVal (u.stormglass.bind Regional.wave_height_m)).toList ++
  (truthyVal (u.metno.bind Regional.wave_height_m)).toList ++
  (truthyVal (u.noaa_erddap.bind GlobalModel.wave_height_m)).toList ++
  (truthyVal (u.noaa_gfs.bind GlobalModel.wave_height_m)).toList ++
  (truthyVal (u.era5.bind GlobalModel.wave_height_m)).toList ++
  (truthyVal (u.openmeteo.bind GlobalModel.wave_height_m)).toList

/-- The `wind_speeds` list: truthy `wind_speed_ms` values of stormglass,
openweather, noaa_erddap, noaa_gfs and era5, in code order. -/
def wind_speeds (u : Unpacked) : List ℚ :=
  (truthyVal (u.stormglass.bind Regional.wind_speed_ms)).toList ++
  (truthyVal (u.openweather.bind Regional.wind_speed_ms)).toList ++
  (truthyVal (u.noaa_erddap.bind GlobalModel.wind_speed_ms)).toList ++
  (truthyVal (u.noaa_gfs.bind GlobalModel.wind_speed_ms)).toList ++
  (truthyVal (u.era5.bind GlobalModel.wind_speed_ms)).toList

/-- The `temperatures` list: the truthy `temperature_c` value of openweather. -/
def temperatures (u : Unpacked) : List ℚ :=
  (truthyVal (u.openweather.bind Regional.temperature_c)).toList

/-! ## Conditions text (forecast.py lines 263-295) -/

/-- The meters-to-feet factor `3.28084`. -/
def M_TO_FT : ℚ := 328084/100000

/-- The m/s-to-knots factor `1.94384`. -/
def MS_TO_KTS : ℚ := 194384/100000

/-- Wave-size bucket of the mean wave height in feet. -/
def sizeDesc (wave_ft : ℚ) : String :=
  if wave_ft < 2 then "Small"
  else if wave_ft < 4 then "2-3ft"
  else if wave_ft < 6 then "4-5ft"
  else if wave_ft < 8 then "6-7ft"
  else toString (pyInt wave_ft) ++ "ft+"

/-- Wind bucket of the mean wind speed in knots. -/
def windDesc (wind_kts : ℚ) : String :=
  if wind_kts < 5 then "calm"
  else if wind_kts < 10 then "light wind"
  else if wind_kts < 15 then "moderate wind"
  else "strong wind"

/-- The `conditions_text` value: the default stands unless both value lists
are non-empty, in which case it is built from the two bucket phrases. -/
def conditionsText (wh ws : List ℚ) : String :=
  if wh = [] ∨ ws = [] then "Forecast unavailable"
  else sizeDesc (mean wh * M_TO_FT) ++ " waves, " ++ windDesc (mean ws * MS_TO_KTS)

/-! ## The response of GET /api/forecast/global (forecast.py lines 302-333) -/

/-- The `summary` block. -/
structure Summary where
  wave_height_m : Option ℚ
  wind_speed_ms : Option ℚ
  temperature_c : Option ℚ
  tide_height_m : Option ℚ
  conditions : String
deriving DecidableEq

/-- The response body fields the specification constrains. The `timestamp`,
`location`, raw `sources` echo and wall-clock `response_time_s` fields are
elided. -/
structure GlobalResponse where
  summary : Summary
  partialFlag : Bool
  sources_available : List String
  sources_failed : Option (List String)
deriving DecidableEq

/-- Build the response dict from the unpacked source data
(forecast.py lines 232-330). -/
def buildResponse (u : Unpacked) : GlobalResponse :=
  let wh := wave_heights u
  let ws := wind_speeds u
  let ts := temperatures u
  { summary :=
    { wave_height_m := if wh = [] then none else some (pyRound (mean wh) 2)
      wind_speed_ms := if ws = [] then none else some (pyRound (mean ws) 1)
      temperature_c := if ts = [] then none else some (pyRound (mean ts) 1)
      tide_height_m := u.worldtides.bind Regional.current_tide_m
      conditions := conditionsText wh ws }
    partialFlag := decide (0 < (sourcesFailed u).length)
    sources_available := sourcesAvailable u
    sources_failed := if sourcesFailed u = [] then none else some (sourcesFailed u) }

/-- The endpoint `get_global_forecast`: validate the coordinates (line 151,
an invalid request raises HTTPException 400 before the gather call), otherwise
fan out to all nine adapters and build the response, returned as success even
when sources failed (line 333). The second component counts the adapter fetch
invocations performed. -/
def get_global_forecast (lat lon : ℚ) (inp : FetchOutcomes) :
    Except ℕ GlobalResponse × ℕ :=
  if ¬(-90 ≤ lat ∧ lat ≤ 90) ∨ ¬(-180 ≤ lon ∧ lon ≤ 180) then (.error 400, 0)
  else (.ok (buildResponse (unpackAll inp)), 9)

/-! ## Failure predicates used to state the claims -/

/-- A regional fetch fails when it raised, timed out, or returned `None`. -/
def regionalFails (r : FetchResult Regional) : Bool := (unpackResult r).isNone

/-- A global-model fetch fails when it raised, timed out, returned `None`, or
returned a dict flagged `available: False`. -/
def modelFails (r : FetchResult GlobalModel) : Bool :=
  match unpackResult r with
  | none => true
  | some m => !m.available

/-- The number of failed provider fetches among the nine. -/
def failCount (inp : FetchOutcomes) : ℕ :=
  (List.filter id
    [regionalFails inp.stormglass, regionalFails inp.openweather,
     regionalFails inp.worldtides, regionalFails inp.metno,
     modelFails inp.noaa_erddap, modelFails inp.noaa_gfs,
     modelFails inp.era5, modelFails inp.openmeteo,
     modelFails inp.copernicus]).length

/-! ## Debug statistics (forecast.py lines 449-504)

The helper `calculate_stats` computes `std_dev = math.sqrt(variance)`; the
square root is irrational in general, so the float `math.sqrt` result is
passed in as the explicit parameter `sqrtOracle`, constrained in the theorems
by the square-root contract. -/

/-- Divisor-by-n variance term of `calculate_stats`
(`sum((x - mean) ** 2 for x in values) / len(values)`). -/
def popVariance (values : List ℚ) : ℚ :=
  ((values.map fun x => (x - mean values)^2).sum) / values.length

/-- The statistics dict of `calculate_stats` for a non-empty value list. The
`available: True` key is rendered by the surrounding `Option`. -/
structure StatsBlock where
  count : ℕ
  mean : ℚ
  minv : ℚ
  maxv : ℚ
  std_dev : ℚ
  variance : ℚ
  coefficient_of_variation_pct : ℚ
  agreement_level : String
deriving DecidableEq

/-- The helper `calculate_stats(values, name)` of the debug endpoint
(forecast.py lines 449-473); `none` models the `{"available": False}` return
for an empty list. `sqrtOracle` stands for `math.sqrt(variance)`. -/
def calculate_stats (values : List ℚ) (sqrtOracle : ℚ) : Option StatsBlock :=
  if values = [] then none
  else
    let m := mean values
    let variance := if 1 < values.length then popVariance values else 0
    let std_dev := sqrtOracle
    let cv := if 0 < m then std_dev / m * 100 else 0
    some
      { count := values.length
        mean := pyRound m 2
        minv := pyRound ((values.min?).getD 0) 2
        maxv := pyRound ((values.max?).getD 0) 2
        std_dev := pyRound std_dev 2
        variance := pyRound variance 3
        coefficient_of_variation_pct := pyRound cv 1
        agreement_level :=
          if cv < 10 then "excellent"
          else if cv < 20 then "good"
          else if cv < 30 then "moderate"
          else "poor" }

/-- The helper `find_outliers(values_by_source, mean, std_dev)`
(forecast.py lines 480-488). The code appends a formatted label
`f"{source} ({value:.2f}m, z-score: {z:.1f})"` per flagged source; the label is
modelled by the source name, which determines it together with the inputs. -/
def find_outliers (values_by_source : List (String × ℚ)) (m std_dev : ℚ) :
    List String :=
  if std_dev = 0 then []
  else values_by_source.filterMap fun p =>
    if 3/2 < |p.2 - m| / std_dev then some p.1 else none

/-! ## The per-cell Open-Meteo cache (backend/utils/fetch_openmeteo.py) -/

/-- Cache key of `_get_cache_key`: `round(lat * 10) / 10` and the same for
`lon` (0.1 degree grid); the two rounded numbers determine the
`f"{lat_rounded},{lon_rounded}"` string key. -/
def cacheKey (lat lon : ℚ) : ℚ × ℚ :=
  ((pyRoundInt (lat * 10) : ℚ) / 10, (pyRoundInt (lon * 10) : ℚ) / 10)

/-- One entry of `_openmeteo_cache`: the parsed result dict (abstracted as its
payload) with the `cached_at` request start time. -/
structure OMEntry where
  data : ℚ
  cached_at : ℚ
deriving DecidableEq

/-- The module state of fetch_openmeteo.py: the `_openmeteo_cache` dict plus a
count of remote API calls performed (for stating the call-count claims). -/
structure OMState where
  cache : ℚ × ℚ → Option OMEntry
  remoteCalls : ℕ

/-- The `CACHE_TTL` constant (3600 seconds). -/
def OPENMETEO_CACHE_TTL : ℚ := 3600

/-- The function `fetch_openmeteo(lat, lon)` (lines 43-94): serve the cached
entry when its age is strictly below the TTL; otherwise perform the remote
call, whose outcome is the parameter `remote` (`none` models a timeout, HTTP
error or parse error, returned as `None` without touching the cache; a success
is cached under the key with `cached_at = start_time` before returning). -/
def fetch_openmeteo (lat lon : ℚ) (now : ℚ) (remote : Option ℚ) (st : OMState) :
    Option ℚ × OMState :=
  let key := cacheKey lat lon
  let hit : Option ℚ :=
    match st.cache key with
    | some e => if now - e.cached_at < OPENMETEO_CACHE_TTL then some e.data else none
    | none => none
  match hit with
  | some d => (some d, st)
  | none =>
    match remote with
    | some d =>
      (some d,
       { cache := fun k => if k = key then some ⟨d, now⟩ else st.cache k
         remoteCalls := st.remoteCalls + 1 })
    | none => (none, { cache := st.cache, remoteCalls := st.remoteCalls + 1 })

/-! ## The ingestion scheduler (backend/scheduler.py) -/

/-- The five ingester outcomes gathered for one location by
`GlobalIngestionScheduler.ingest_location` with `return_exceptions=True`:
each `ingest_data()` call either raises or returns its inserted-record count. -/
structure IngestOutcomes where
  noaa : Except Unit ℕ
  stormglass : Except Unit ℕ
  openweather : Except Unit ℕ
  tides : Except Unit ℕ
  metno : Except Unit ℕ

/-- Per-source count extraction (scheduler.py lines 87-93):
`results[i] if not isinstance(results[i], Exception) else 0`. -/
def sourceCount (r : Except Unit ℕ) : ℕ :=
  match r with
  | .error _ => 0
  | .ok n => n

/-- The five scheduler source names in dict order. -/
def ingestSources : List String :=
  ["noaa", "stormglass", "openweather", "tides", "metno"]

/-- The `counts` dict returned by `ingest_location` for one location. -/
def ingest_location (r : IngestOutcomes) : List (String × ℕ) :=
  [("noaa", sourceCount r.noaa),
   ("stormglass", sourceCount r.stormglass),
   ("openweather", sourceCount r.openweather),
   ("tides", sourceCount r.tides),
   ("metno", sourceCount r.metno)]

/-- Dict lookup with default 0, as in `total_counts[source] += count`. -/
def lookupCount (s : String) (c : List (String × ℕ)) : ℕ :=
  ((c.find? fun p => p.1 == s).map Prod.snd).getD 0

/-- One accumulation step of `run_full_ingestion` (scheduler.py lines
128-133): add each source count of the location into `total_counts`. -/
def addCounts (tot c : List (String × ℕ)) : List (String × ℕ) :=
  tot.map fun p => (p.1, p.2 + lookupCount p.1 c)

/-- The initial `total_counts` dict (scheduler.py line 126). -/
def initTotals : List (String × ℕ) :=
  [("noaa", 0), ("stormglass", 0), ("openweather", 0), ("tides", 0), ("metno", 0)]

/-- One full ingestion cycle over the loaded locations, each location given by
its five gathered ingester outcomes, processed sequentially
(scheduler.py lines 110-149). -/
def run_full_ingestion (locs : List IngestOutcomes) : List (String × ℕ) :=
  locs.foldl (fun tot r => addCounts tot (ingest_location r)) initTotals

/-! ## The health endpoint (forecast.py lines 566-708) -/

/-- One probe result; only the `ok` key decides the overall status, so the
`latency_ms` and `error` keys are elided. -/
structure ProbeResult where
  ok : Bool
deriving DecidableEq

/-- Unpacking of a gathered probe outcome (forecast.py lines 618-626): an
exception becomes `{"ok": False, "error": ...}`. -/
def unpackProbe (r : Except Unit ProbeResult) : ProbeResult :=
  match r with
  | .error _ => ⟨false⟩
  | .ok p => p

/-- The inputs of one uncached `health_check` invocation: the database probe
(`await db.execute(select(1))`, lines 596-601) and the nine gathered provider
probes (lines 604-615). -/
structure HealthInputs where
  dbProbe : Except Unit Unit
  stormglass : Except Unit ProbeResult
  openweather : Except Unit ProbeResult
  worldtides : Except Unit ProbeResult
  metno : Except Unit ProbeResult
  noaa_erddap : Except Unit ProbeResult
  noaa_gfs : Except Unit ProbeResult
  era5 : Except Unit ProbeResult
  openmeteo : Except Unit ProbeResult
  copernicus : Except Unit ProbeResult

/-- The health response fields the specification constrains. -/
structure HealthResponse where
  status : String
  services : List (String × Bool)
  database_connected : Bool
  failed_services : Option (List String)
deriving DecidableEq

/-- The `db_ok` flag (forecast.py lines 596-601): true iff the
`select(1)` probe did not raise. -/
def dbOk (r : Except Unit Unit) : Bool :=
  match r with
  | .ok _ => true
  | .error _ => false

/-- The per-service ok flags in code order. -/
def healthServices (inp : HealthInputs) : List (String × Bool) :=
  [("stormglass", (unpackProbe inp.stormglass).ok),
   ("openweather", (unpackProbe inp.openweather).ok),
   ("worldtides", (unpackProbe inp.worldtides).ok),
   ("metno", (unpackProbe inp.metno).ok),
   ("noaa_erddap", (unpackProbe inp.noaa_erddap).ok),
   ("noaa_gfs", (unpackProbe inp.noaa_gfs).ok),
   ("era5", (unpackProbe inp.era5).ok),
   ("openmeteo", (unpackProbe inp.openmeteo).ok),
   ("copernicus_marine", (unpackProbe inp.copernicus).ok)]

/-- The local variable `status_code = 207 if overall_status == "degraded" else
200` computed at forecast.py line 699. The endpoint then executes
`return response` with the bare dict, so this value is never attached to the
HTTP response. -/
def intended_status_code (overall : String) : ℕ :=
  if overall = "degraded" then 207 else 200

/-- The test `all(all_services)` over the ten collected ok flags, nine
providers plus the database (forecast.py lines 628-664). -/
def allServicesOk (inp : HealthInputs) : Bool :=
  ((healthServices inp).map Prod.snd ++ [dbOk inp.dbProbe]).all id

/-- One uncached invocation of the `/api/forecast/health` endpoint
(forecast.py lines 592-701): the response body, paired with the HTTP status
code actually sent - FastAPI's default 200, because the endpoint returns the
bare dict and never applies the computed `status_code` local. -/
def health_check (inp : HealthInputs) : HealthResponse × ℕ :=
  let db_ok := dbOk inp.dbProbe
  let services := healthServices inp
  let failed := ((services.filter fun p => !p.2).map Prod.fst) ++
    (if db_ok then [] else ["database"])
  let overall := if allServicesOk inp then "ok" else "degraded"
  ({ status := overall
     services := services
     database_connected := db_ok
     failed_services := if failed = [] then none else some failed }, 200)

/-! ## Concrete inputs and claim-side definitions used by the theorems -/

/-- An input for the C1 witness: stormglass raises and copernicus reports
`available: False`, the other seven sources succeed. -/
def witnessInput1 : FetchOutcomes :=
  { stormglass := .error ()
    openweather := .ok (some {})
    worldtides := .ok (some {})
    metno := .ok (some {})
    noaa_erddap := .ok (some {})
    noaa_gfs := .ok (some {})
    era5 := .ok (some {})
    openmeteo := .ok (some {})
    copernicus := .ok (some { available := false }) }

/-- Shape of every return path of the five global-model fetchers: a dict
flagged `available: False` carries no metric values (fetch_noaa_erddap.py
lines 144-149, fetch_era5.py lines 79-85, fetch_noaa_gfs.py lines 219-222,
fetch_copernicus.py lines 64-70; fetch_openmeteo.py only returns
`available: True` dicts or `None`). -/
def modelWF (d : Option GlobalModel) : Prop :=
  ∀ m, d = some m → m.available = false →
    m.wave_height_m = none ∧ m.wind_speed_ms = none

/-- All five global-model results have the fetchers' shape. -/
def WellFormed (u : Unpacked) : Prop :=
  modelWF u.noaa_erddap ∧ modelWF u.noaa_gfs ∧ modelWF u.era5 ∧
  modelWF u.openmeteo ∧ modelWF u.copernicus

/-- Value a provider contributes under the claim's wording, truthiness kept:
counted only when the provider is available. -/
def availTruthy (ok : Bool) (v : Option ℚ) : Option ℚ :=
  if ok then truthyVal v else none

/-- Stated from the claim's wording: the truthy wave-height values reported by
the available providers that carry the metric. -/
def specWaveValues (u : Unpacked) : List ℚ :=
  (availTruthy (regionalOk u.stormglass) (u.stormglass.bind Regional.wave_height_m)).toList ++
  (availTruthy (regionalOk u.metno) (u.metno.bind Regional.wave_height_m)).toList ++
  (availTruthy (modelOk u.noaa_erddap) (u.noaa_erddap.bind GlobalModel.wave_height_m)).toList ++
  (availTruthy (modelOk u.noaa_gfs) (u.noaa_gfs.bind GlobalModel.wave_height_m)).toList ++
  (availTruthy (modelOk u.era5) (u.era5.bind GlobalModel.wave_height_m)).toList ++
  (availTruthy (modelOk u.openmeteo) (u.openmeteo.bind GlobalModel.wave_height_m)).toList

/-- Stated from the claim's wording: the truthy wind-speed values reported by
the available providers that carry the metric. -/
def specWindValues (u : Unpacked) : List ℚ :=
  (availTruthy (regionalOk u.stormglass) (u.stormglass.bind Regional.wind_speed_ms)).toList ++
  (availTruthy (regionalOk u.openweather) (u.openweather.bind Regional.wind_speed_ms)).toList ++
  (availTruthy (modelOk u.noaa_erddap) (u.noaa_erddap.bind GlobalModel.wind_speed_ms)).toList ++
  (availTruthy (modelOk u.noaa_gfs) (u.noaa_gfs.bind GlobalModel.wind_speed_ms)).toList ++
  (availTruthy (modelOk u.era5) (u.era5.bind GlobalModel.wind_speed_ms)).toList

/-- Stated from the claim's wording: the truthy temperature values reported by
the available providers that carry the metric (only openweather does). -/
def specTempValues (u : Unpacked) : List ℚ :=
  (availTruthy (regionalOk u.openweather) (u.openweather.bind Regional.temperature_c)).toList

/-- Stated from the claim's exact wording for the counterexample: the
NON-NULL (not necessarily truthy) temperature values reported by the available
regional providers, whose dicts are the ones that can hold the key. -/
def specNonNullTemperatures (u : Unpacked) : List ℚ :=
  (if regionalOk u.stormglass then u.stormglass.bind Regional.temperature_c else none).toList ++
  (if regionalOk u.openweather then u.openweather.bind Regional.temperature_c else none).toList ++
  (if regionalOk u.worldtides then u.worldtides.bind Regional.temperature_c else none).toList ++
  (if regionalOk u.metno then u.metno.bind Regional.temperature_c else none).toList

/-- Input refuting C3 as stated: the only temperature report is `0.0`. -/
def zeroTempInput : FetchOutcomes :=
  { stormglass := .ok none
    openweather := .ok (some { temperature_c := some 0 })
    worldtides := .ok none
    metno := .ok none
    noaa_erddap := .ok none
    noaa_gfs := .ok none
    era5 := .ok none
    openmeteo := .ok none
    copernicus := .ok none }

/-- An input for the C3 witness: one wave report, one wind report, one
temperature report, all truthy; the five model sources absent. -/
def witnessInput3 : FetchOutcomes :=
  { stormglass := .ok (some { wave_height_m := some 2, wind_speed_ms := some 5 })
    openweather := .ok (some { temperature_c := some 10 })
    worldtides := .ok none
    metno := .ok none
    noaa_erddap := .ok none
    noaa_gfs := .ok none
    era5 := .ok none
    openmeteo := .ok none
    copernicus := .ok none }

/-- Stated from the claim's wording: the sample (Bessel-corrected) variance,
dividing by `n - 1`. -/
def specSampleVariance (values : List ℚ) : ℚ :=
  ((values.map fun x => (x - mean values)^2).sum) / ((values.length : ℚ) - 1)

/-- A degraded input: the database probe raises, all nine provider probes
report ok. -/
def degradedInput : HealthInputs :=
  { dbProbe := .error ()
    stormglass := .ok ⟨true⟩
    openweather := .ok ⟨true⟩
    worldtides := .ok ⟨true⟩
    metno := .ok ⟨true⟩
    noaa_erddap := .ok ⟨true⟩
    noaa_gfs := .ok ⟨true⟩
    era5 := .ok ⟨true⟩
    openmeteo := .ok ⟨true⟩
    copernicus := .ok ⟨true⟩ }

/-- Stated from the claim's exact wording for the counterexample: the wind
bucket with `calm` below 5 kt, `light` for 5 to 10, `moderate` for 10 to 15 and
`strong` strictly above 15 knots. -/
def specWindBucket (kts : ℚ) : String :=
  if kts < 5 then "calm"
  else if kts < 10 then "light"
  else if kts ≤ 15 then "moderate"
  else "strong"

/-- An input whose mean wind speed is exactly 15 knots
(`15 / 1.94384 m/s`), with one small wave report. -/
def windBoundaryInput : FetchOutcomes :=
  { stormglass := .ok (some
      { wave_height_m := some 1, wind_speed_ms := some (93750/12149) })
    openweather := .ok none
    worldtides := .ok none
    metno := .ok none
    noaa_erddap := .ok none
    noaa_gfs := .ok none
    era5 := .ok none
    openmeteo := .ok none
    copernicus := .ok none }

/-! ## Helper lemmas -/

lemma getD_if_empty (l : List String) :
    (if l = [] then (none : Option (List String)) else some l).getD [] = l := by
  split
  · simp [*]
  · rfl

lemma filter_not_length_map (l : List (String × Bool)) :
    (((l.filter fun p => !p.2)).map Prod.fst).length =
      (List.filter id (l.map fun p => !p.2)).length := by
  induction l with
  | nil => rfl
  | cons a t ih => cases h : a.2 <;> simp [List.filter_cons, h, ih]

lemma regionalFails_eq (r : FetchResult Regional) :
    regionalFails r = !(regionalOk (unpackResult r)) := by
  cases h : unpackResult r <;> simp [regionalFails, regionalOk, h]

lemma modelFails_eq (r : FetchResult GlobalModel) :
    modelFails r = !(modelOk (unpackResult r)) := by
  cases h : unpackResult r <;> simp [modelFails, modelOk, h]

lemma failCount_as_flags (inp : FetchOutcomes) :
    failCount inp =
      (List.filter id ((availFlags (unpackAll inp)).map fun p => !p.2)).length := by
  simp only [failCount, availFlags, unpackAll, List.map_cons, List.map_nil,
    regionalFails_eq, modelFails_eq]

lemma sourcesFailed_length (inp : FetchOutcomes) :
    (sourcesFailed (unpackAll inp)).length = failCount inp := by
  rw [sourcesFailed, filter_not_length_map, failCount_as_flags]

lemma avail_failed_length (u : Unpacked) :
    (sourcesAvailable u).length + (sourcesFailed u).length = 9 := by
  have h := (List.filter_append_perm (fun p => p.2) (availFlags u)).length_eq
  simp only [List.length_append] at h
  simpa [sourcesAvailable, sourcesFailed, availFlags] using h

lemma providerNames_nodup : providerNames.Nodup := by decide

lemma availFlags_map_fst (u : Unpacked) :
    (availFlags u).map Prod.fst = providerNames := by
  simp [availFlags, providerNames]

lemma sources_count_one (u : Unpacked) (p : String) (hp : p ∈ providerNames) :
    (sourcesAvailable u).count p + (sourcesFailed u).count p = 1 := by
  have hperm :=
    (List.filter_append_perm (fun q => q.2) (availFlags u)).map Prod.fst
  have hcount := hperm.count_eq p
  rw [List.map_append, List.count_append, availFlags_map_fst,
    List.count_eq_one_of_mem providerNames_nodup hp] at hcount
  exact hcount

/-! ## Claims about GET /api/forecast/global -/

/-- C2: coordinates are accepted iff `-90 <= lat <= 90` and
`-180 <= lon <= 180`; an out-of-range request fails with HTTP 400 before any
adapter fetch, hence with adapter call count 0, while a valid request reaches
the fan-out (all nine adapters invoked) and succeeds. -/
theorem C2_coordinate_validation (lat lon : ℚ) (inp : FetchOutcomes) :
    ((-90 ≤ lat ∧ lat ≤ 90 ∧ -180 ≤ lon ∧ lon ≤ 180) →
      get_global_forecast lat lon inp = (.ok (buildResponse (unpackAll inp)), 9)) ∧
    (¬(-90 ≤ lat ∧ lat ≤ 90 ∧ -180 ≤ lon ∧ lon ≤ 180) →
      get_global_forecast lat lon inp = (.error 400, 0)) := by
  constructor
  · intro h
    rw [get_global_forecast, if_neg (by tauto)]
  · intro h
    rw [get_global_forecast, if_pos (by tauto)]

/-- Witness for C2: the spec's invalid example `lat = 200` is rejected with
status 400 and zero adapter calls; a valid request is accepted. -/
theorem C2_coordinate_validation_witness :
    get_global_forecast 200 0
      { stormglass := .error (), openweather := .error (), worldtides := .error ()
        metno := .error (), noaa_erddap := .error (), noaa_gfs := .error ()
        era5 := .error (), openmeteo := .error (), copernicus := .error () } =
      (.error 400, 0) :=
  (C2_coordinate_validation 200 0 _).2 (by norm_num)

/-- C1: for a valid request, if exactly `k` of the nine provider fetches fail
(raise, or return an absent or unavailable result), the endpoint still
succeeds, `sources_failed` has length `k`, `sources_available` has length
`9 - k`, every provider appears in exactly one of the two lists, and the
partial flag is `k > 0`. The `sources_failed` response field is `null` when
the failure list is empty, so it is read through `getD []`. -/
theorem C1_partial_aggregation (lat lon : ℚ) (inp : FetchOutcomes)
    (hlat : -90 ≤ lat ∧ lat ≤ 90) (hlon : -180 ≤ lon ∧ lon ≤ 180) :
    ∃ r, (get_global_forecast lat lon inp).1 = .ok r ∧
      (r.sources_failed.getD []).length = failCount inp ∧
      r.sources_available.length = 9 - failCount inp ∧
      (∀ p ∈ providerNames,
        r.sources_available.count p + (r.sources_failed.getD []).count p = 1) ∧
      r.partialFlag = decide (0 < failCount inp) := by
  refine ⟨buildResponse (unpackAll inp), ?_, ?_, ?_, ?_, ?_⟩
  · rw [get_global_forecast, if_neg (by tauto)]
  · simp only [buildResponse, getD_if_empty]
    exact sourcesFailed_length inp
  · simp only [buildResponse]
    have h1 := avail_failed_length (unpackAll inp)
    have h2 := sourcesFailed_length inp
    omega
  · intro p hp
    simp only [buildResponse, getD_if_empty]
    exact sources_count_one (unpackAll inp) p hp
  · simp only [buildResponse]
    rw [sourcesFailed_length inp]

/-- Witness for C1 at a concrete input with exactly two failed sources. -/
theorem C1_partial_aggregation_witness :
    failCount witnessInput1 = 2 ∧
    ∃ r, (get_global_forecast 0 0 witnessInput1).1 = .ok r ∧
      (r.sources_failed.getD []).length = failCount witnessInput1 ∧
      r.sources_available.length = 9 - failCount witnessInput1 ∧
      (∀ p ∈ providerNames,
        r.sources_available.count p + (r.sources_failed.getD []).count p = 1) ∧
      r.partialFlag = decide (0 < failCount witnessInput1) :=
  ⟨by decide,
   C1_partial_aggregation 0 0 witnessInput1 (by norm_num) (by norm_num)⟩

/-! ## The summary means (claim C3) -/

/-- An absent result satisfies the shape vacuously. -/
lemma modelWF_none : modelWF none := fun _ hm => nomatch hm

lemma truthy_regional (d : Option Regional) (f : Regional → Option ℚ) :
    truthyVal (d.bind f) = availTruthy (regionalOk d) (d.bind f) := by
  cases d <;> simp [availTruthy, regionalOk, truthyVal]

lemma truthy_model (d : Option GlobalModel) (f : GlobalModel → Option ℚ)
    (h : ∀ m, d = some m → m.available = false → f m = none) :
    truthyVal (d.bind f) = availTruthy (modelOk d) (d.bind f) := by
  cases d with
  | none => rfl
  | some m =>
    cases hav : m.available
    · simp [availTruthy, modelOk, hav, h m rfl hav, truthyVal]
    · simp [availTruthy, modelOk, hav]

lemma wave_heights_spec (u : Unpacked) (h : WellFormed u) :
    wave_heights u = specWaveValues u := by
  obtain ⟨h1, h2, h3, h4, _⟩ := h
  unfold wave_heights specWaveValues
  rw [truthy_regional, truthy_regional,
    truthy_model _ _ (fun m hm hav => (h1 m hm hav).1),
    truthy_model _ _ (fun m hm hav => (h2 m hm hav).1),
    truthy_model _ _ (fun m hm hav => (h3 m hm hav).1),
    truthy_model _ _ (fun m hm hav => (h4 m hm hav).1)]

lemma wind_speeds_spec (u : Unpacked) (h : WellFormed u) :
    wind_speeds u = specWindValues u := by
  obtain ⟨h1, h2, h3, _, _⟩ := h
  unfold wind_speeds specWindValues
  rw [truthy_regional, truthy_regional,
    truthy_model _ _ (fun m hm hav => (h1 m hm hav).2),
    truthy_model _ _ (fun m hm hav => (h2 m hm hav).2),
    truthy_model _ _ (fun m hm hav => (h3 m hm hav).2)]

lemma temperatures_spec (u : Unpacked) :
    temperatures u = specTempValues u := by
  unfold temperatures specTempValues
  rw [truthy_regional]

/-- Counterexample to C3 as stated: openweather, an available provider,
reports the non-null value `temperature_c = 0.0`, so the non-null subset is
`[0]` and the claim requires the summary temperature to be its mean, `0`; but
the code's Python truthiness test `if openweather_data.get("temperature_c"):`
drops `0.0`, and the summary field is `null` instead. -/
theorem C3_counterexample :
    specNonNullTemperatures (unpackAll zeroTempInput) = [0] ∧
    mean [0] = 0 ∧
    ((get_global_forecast 0 0 zeroTempInput).1.map fun r =>
      r.summary.temperature_c) = .ok none := by
  refine ⟨rfl, by norm_num [mean], ?_⟩
  rw [get_global_forecast, if_neg (by norm_num)]
  rfl

/-- C3 as amended: each summary metric is the arithmetic mean - rounded
half-to-even to the displayed precision (2 decimals for wave height, 1 for
wind speed and temperature) - of exactly the truthy (non-null and non-zero)
values that the available providers reported for that metric; an empty subset
yields null. The hypothesis `WellFormed` records the shape of the actual
fetcher return paths (an unavailable model dict has no metric values). -/
theorem C3_summary_means (lat lon : ℚ) (inp : FetchOutcomes)
    (hlat : -90 ≤ lat ∧ lat ≤ 90) (hlon : -180 ≤ lon ∧ lon ≤ 180)
    (hwf : WellFormed (unpackAll inp)) :
    ∃ r, (get_global_forecast lat lon inp).1 = .ok r ∧
      r.summary.wave_height_m =
        (if specWaveValues (unpackAll inp) = [] then none
         else some (pyRound (mean (specWaveValues (unpackAll inp))) 2)) ∧
      r.summary.wind_speed_ms =
        (if specWindValues (unpackAll inp) = [] then none
         else some (pyRound (mean (specWindValues (unpackAll inp))) 1)) ∧
      r.summary.temperature_c =
        (if specTempValues (unpackAll inp) = [] then none
         else some (pyRound (mean (specTempValues (unpackAll inp))) 1)) := by
  refine ⟨buildResponse (unpackAll inp), ?_, ?_, ?_, ?_⟩
  · rw [get_global_forecast, if_neg (by tauto)]
  · simp only [buildResponse]
    rw [wave_heights_spec _ hwf]
  · simp only [buildResponse]
    rw [wind_speeds_spec _ hwf]
  · simp only [buildResponse]
    rw [temperatures_spec]

/-- Witness for C3 as amended, at a concrete input. -/
theorem C3_summary_means_witness :
    ∃ r, (get_global_forecast 0 0 witnessInput3).1 = .ok r ∧
      r.summary.wave_height_m =
        (if specWaveValues (unpackAll witnessInput3) = [] then none
         else some (pyRound (mean (specWaveValues (unpackAll witnessInput3))) 2)) ∧
      r.summary.wind_speed_ms =
        (if specWindValues (unpackAll witnessInput3) = [] then none
         else some (pyRound (mean (specWindValues (unpackAll witnessInput3))) 1)) ∧
      r.summary.temperature_c =
        (if specTempValues (unpackAll witnessInput3) = [] then none
         else some (pyRound (mean (specTempValues (unpackAll witnessInput3))) 1)) :=
  C3_summary_means 0 0 witnessInput3 (by norm_num) (by norm_num)
    ⟨modelWF_none, modelWF_none, modelWF_none, modelWF_none, modelWF_none⟩

/-! ## Claims about the debug statistics -/

/-- Evaluation of the agreement classifier of `calculate_stats` on each label. -/
lemma agreement_eval (cv : ℚ) :
    (((if cv < 10 then "excellent" else if cv < 20 then "good"
       else if cv < 30 then "moderate" else "poor") = "excellent") ↔ cv < 10) ∧
    (((if cv < 10 then "excellent" else if cv < 20 then "good"
       else if cv < 30 then "moderate" else "poor") = "good") ↔ 10 ≤ cv ∧ cv < 20) ∧
    (((if cv < 10 then "excellent" else if cv < 20 then "good"
       else if cv < 30 then "moderate" else "poor") = "moderate") ↔ 20 ≤ cv ∧ cv < 30) ∧
    (((if cv < 10 then "excellent" else if cv < 20 then "good"
       else if cv < 30 then "moderate" else "poor") = "poor") ↔ 30 ≤ cv) := by
  refine ⟨?_, ?_, ?_, ?_⟩ <;> split_ifs with h1 h2 h3 <;> simp <;>
    first
      | linarith
      | (constructor <;> linarith)
      | (rintro hx hy; linarith)
      | (intro hx; linarith)

/-- Counterexample to C4 as stated: for the reports `[1, 3]` the sample
variance is `2`, but the statistics block reports `1`, the divisor-by-n
(population) variance; the oracle argument `1` is the exact
`math.sqrt(variance)` here. -/
theorem C4_counterexample :
    (calculate_stats [1, 3] 1).map StatsBlock.variance = some 1 ∧
    specSampleVariance [1, 3] = 2 ∧ (1 : ℚ) ≠ 2 := by
  refine ⟨?_, ?_, by norm_num⟩
  · norm_num [calculate_stats, mean, popVariance, pyRound, pyRoundInt]
    exact ⟨_, ⟨by simp, rfl⟩, rfl⟩
  · norm_num [specSampleVariance, mean]

/-- C4 as amended: for at least two reported values the statistics block
reports the divisor-by-n (population) variance, the standard deviation as its
square root (the float `math.sqrt` result `s`, constrained by the square-root
contract), the coefficient of variation as `std_dev / mean * 100`, and
classifies agreement as excellent iff CV < 10, good iff 10 <= CV < 20,
moderate iff 20 <= CV < 30, poor otherwise; for the reports `{3.0, 3.2, 2.9}`
the mean is within 0.01 of 3.033, the variance is exactly 7/450, the standard
deviation `t` (any value meeting the square-root contract up to 1/10000) is
within 0.01 of 0.126, the CV is within 0.1 of 4.2, and the agreement is
excellent. -/
theorem C4_statistics (values : List ℚ) (s t : ℚ)
    (hlen : 2 ≤ values.length) (hs0 : 0 ≤ s) (hs : s^2 = popVariance values)
    (hm : 0 < mean values)
    (ht0 : 0 ≤ t) (ht1 : t^2 ≤ 7/450) (ht2 : 7/450 ≤ (t + 1/10000)^2) :
    (∃ b, calculate_stats values s = some b ∧
      b.variance = pyRound (popVariance values) 3 ∧
      b.std_dev = pyRound s 2 ∧
      b.coefficient_of_variation_pct = pyRound (s / mean values * 100) 1 ∧
      (b.agreement_level = "excellent" ↔ s / mean values * 100 < 10) ∧
      (b.agreement_level = "good" ↔
        10 ≤ s / mean values * 100 ∧ s / mean values * 100 < 20) ∧
      (b.agreement_level = "moderate" ↔
        20 ≤ s / mean values * 100 ∧ s / mean values * 100 < 30) ∧
      (b.agreement_level = "poor" ↔ 30 ≤ s / mean values * 100)) ∧
    (∃ c, calculate_stats [3, 16/5, 29/10] t = some c ∧
      |mean [3, 16/5, 29/10] - 3033/1000| < 1/100 ∧
      popVariance [3, 16/5, 29/10] = 7/450 ∧
      |t - 126/1000| < 1/100 ∧
      |t / mean [3, 16/5, 29/10] * 100 - 42/10| < 1/10 ∧
      c.agreement_level = "excellent") := by
  have hm3 : mean [3, 16/5, 29/10] = 91/30 := by norm_num [mean]
  have hv3 : popVariance [3, 16/5, 29/10] = 7/450 := by
    norm_num [popVariance, mean]
  have htu : t ≤ 12473/100000 := by nlinarith
  have htl : 1246/10000 < t := by nlinarith
  constructor
  · have hne : values ≠ [] := by
      intro h
      rw [h] at hlen
      simp at hlen
    rw [calculate_stats, if_neg hne]
    refine ⟨_, rfl, ?_, rfl, ?_, ?_, ?_, ?_, ?_⟩
    · rw [if_pos (by omega)]
    · rw [if_pos hm]
    all_goals rw [if_pos hm]
    · exact (agreement_eval _).1
    · exact (agreement_eval _).2.1
    · exact (agreement_eval _).2.2.1
    · exact (agreement_eval _).2.2.2
  · have hdiv : t / (91/30 : ℚ) * 100 = 3000/91 * t := by ring
    have hmp : (0 : ℚ) < 91/30 := by norm_num
    rw [calculate_stats, if_neg (by simp)]
    refine ⟨_, rfl, ?_, hv3, ?_, ?_, ?_⟩
    · rw [hm3, abs_sub_lt_iff]
      constructor <;> norm_num
    · rw [abs_sub_lt_iff]
      constructor <;> linarith
    · rw [hm3, hdiv, abs_sub_lt_iff]
      constructor <;> linarith
    · rw [hm3, if_pos hmp, hdiv]
      have hlt : (3000/91 : ℚ) * t < 10 := by linarith
      rw [if_pos hlt]

/-- Witness for C4 as amended: the general part at the reports `[1, 5]` with
exact standard deviation `2`, and the concrete part with the rational
square-root approximation `0.12472`. -/
theorem C4_statistics_witness :
    (∃ b, calculate_stats [1, 5] 2 = some b ∧
      b.variance = pyRound (popVariance [1, 5]) 3 ∧
      b.std_dev = pyRound 2 2 ∧
      b.coefficient_of_variation_pct = pyRound (2 / mean [1, 5] * 100) 1 ∧
      (b.agreement_level = "excellent" ↔ 2 / mean [1, 5] * 100 < 10) ∧
      (b.agreement_level = "good" ↔
        10 ≤ 2 / mean [1, 5] * 100 ∧ 2 / mean [1, 5] * 100 < 20) ∧
      (b.agreement_level = "moderate" ↔
        20 ≤ 2 / mean [1, 5] * 100 ∧ 2 / mean [1, 5] * 100 < 30) ∧
      (b.agreement_level = "poor" ↔ 30 ≤ 2 / mean [1, 5] * 100)) ∧
    (∃ c, calculate_stats [3, 16/5, 29/10] (12472/100000) = some c ∧
      |mean [3, 16/5, 29/10] - 3033/1000| < 1/100 ∧
      popVariance [3, 16/5, 29/10] = 7/450 ∧
      |(12472/100000 : ℚ) - 126/1000| < 1/100 ∧
      |(12472/100000 : ℚ) / mean [3, 16/5, 29/10] * 100 - 42/10| < 1/10 ∧
      c.agreement_level = "excellent") :=
  C4_statistics [1, 5] 2 (12472/100000)
    (by norm_num) (by norm_num) (by norm_num [popVariance, mean])
    (by norm_num [mean]) (by norm_num) (by norm_num) (by norm_num)

/-- C10: a singleton value list yields an available statistics block with
count 1, variance 0, standard deviation 0, coefficient of variation 0 and the
agreement labeled excellent; `math.sqrt(0) = 0` enters through the square-root
contract on the oracle. -/
theorem C10_singleton_stats (v s : ℚ) (hs0 : 0 ≤ s) (hs : s^2 = 0) :
    ∃ b, calculate_stats [v] s = some b ∧
      b.count = 1 ∧ b.variance = 0 ∧ b.std_dev = 0 ∧
      b.coefficient_of_variation_pct = 0 ∧ b.agreement_level = "excellent" := by
  have hz : s = 0 := by nlinarith
  subst hz
  rw [calculate_stats, if_neg (by simp)]
  have hcv : (if 0 < mean [v] then (0:ℚ) / mean [v] * 100 else 0) = 0 := by
    split <;> simp
  refine ⟨_, rfl, rfl, ?_, ?_, ?_, ?_⟩
  · rw [if_neg (by simp)]
    norm_num [pyRound, pyRoundInt]
  · norm_num [pyRound, pyRoundInt]
  · rw [hcv]
    norm_num [pyRound, pyRoundInt]
  · rw [hcv]
    norm_num

/-- Witness for C10 at the singleton `[5]` with `math.sqrt(0) = 0`. -/
theorem C10_singleton_stats_witness :
    ∃ b, calculate_stats [5] 0 = some b ∧
      b.count = 1 ∧ b.variance = 0 ∧ b.std_dev = 0 ∧
      b.coefficient_of_variation_pct = 0 ∧ b.agreement_level = "excellent" :=
  C10_singleton_stats 5 0 (by norm_num) (by norm_num)

/-! ## The outlier rule (claim C5) -/

/-- Two entries of a Python dict rendered as a key-value list with distinct
keys are equal once their keys agree. -/
lemma eq_of_mem_nodup_keys (l : List (String × ℚ))
    (hnd : (l.map Prod.fst).Nodup) (a b : String × ℚ)
    (ha : a ∈ l) (hb : b ∈ l) (hfst : a.1 = b.1) : a = b := by
  induction l with
  | nil => cases ha
  | cons x t ih =>
    simp only [List.map_cons, List.nodup_cons] at hnd
    rcases List.mem_cons.mp ha with rfl | ha2 <;>
      rcases List.mem_cons.mp hb with rfl | hb2
    · rfl
    · exact absurd (hfst ▸ List.mem_map_of_mem Prod.fst hb2) hnd.1
    · exact absurd (hfst ▸ List.mem_map_of_mem Prod.fst ha2) hnd.1
    · exact ih hnd.2 ha2 hb2

/-- C5: with the per-source value map for a metric and the mean and standard
deviation passed in by the caller, a source is flagged as an outlier iff the
standard deviation is positive and its z-score `|value - mean| / std_dev`
exceeds 1.5; with zero standard deviation the outlier list is empty, so
values at or below the threshold are never flagged. -/
theorem C5_outlier_rule (vbs : List (String × ℚ)) (m s : ℚ)
    (hnd : (vbs.map Prod.fst).Nodup) :
    (s = 0 → find_outliers vbs m s = []) ∧
    (∀ src v, (src, v) ∈ vbs →
      (src ∈ find_outliers vbs m s ↔ 0 < s ∧ 3/2 < |v - m| / s)) := by
  constructor
  · intro h
    rw [find_outliers, if_pos h]
  · intro src v hmem
    by_cases hz : s = 0
    · rw [find_outliers, if_pos hz, hz]
      simp
    · rw [find_outliers, if_neg hz]
      have hpos : ∀ w : ℚ, 3/2 < |w - m| / s → 0 < s := by
        intro w hw
        rcases lt_or_gt_of_ne hz with hneg | hposs
        · exact absurd hw (by
            have : |w - m| / s ≤ 0 :=
              div_nonpos_of_nonneg_of_nonpos (abs_nonneg _) hneg.le
            linarith)
        · exact hposs
      constructor
      · intro hin
        rcases List.mem_filterMap.mp hin with ⟨p, hp, hpe⟩
        by_cases hc : 3/2 < |p.2 - m| / s
        · rw [if_pos hc] at hpe
          injection hpe with h1
          have hpeq : p = (src, v) :=
            eq_of_mem_nodup_keys vbs hnd p (src, v) hp hmem h1
          rw [hpeq] at hc
          exact ⟨hpos _ hc, hc⟩
        · rw [if_neg hc] at hpe
          cases hpe
      · rintro ⟨_, hgt⟩
        exact List.mem_filterMap.mpr ⟨(src, v), hmem, by rw [if_pos hgt]⟩

/-- Witness for C5: with values `{a: 0, b: 4}`, mean 1 and standard deviation
1, source `b` (z-score 3) is flagged and source `a` (z-score 1) is not. -/
theorem C5_outlier_rule_witness :
    ("b" ∈ find_outliers [("a", 0), ("b", 4)] 1 1) ∧
    ("a" ∉ find_outliers [("a", 0), ("b", 4)] 1 1) := by
  have h := C5_outlier_rule [("a", 0), ("b", 4)] 1 1 (by decide)
  constructor
  · exact (h.2 "b" 4 (by decide)).mpr (by norm_num)
  · intro hmem
    have := (h.2 "a" 0 (by decide)).mp hmem
    norm_num at this

/-! ## The Open-Meteo per-cell cache (claim C6) -/

/-- C6: a cached entry is served iff its age is strictly below the TTL of
3600 s (an entry at or past the TTL forces a re-fetch); a successful remote
fetch unconditionally overwrites the entry of its cell; and two fetches for
coordinates in the same coarsened cell within the TTL perform exactly one
remote call, the second being served from the cache. -/
theorem C6_cache_ttl :
    (∀ lat lon now r st e, st.cache (cacheKey lat lon) = some e →
      now - e.cached_at < OPENMETEO_CACHE_TTL →
      fetch_openmeteo lat lon now r st = (some e.data, st)) ∧
    (∀ lat lon now r st e, st.cache (cacheKey lat lon) = some e →
      OPENMETEO_CACHE_TTL ≤ now - e.cached_at →
      (fetch_openmeteo lat lon now r st).2.remoteCalls = st.remoteCalls + 1) ∧
    (∀ lat lon now d st,
      (∀ e, st.cache (cacheKey lat lon) = some e →
        OPENMETEO_CACHE_TTL ≤ now - e.cached_at) →
      (fetch_openmeteo lat lon now (some d) st).2.cache (cacheKey lat lon) =
        some ⟨d, now⟩) ∧
    (∀ lat1 lon1 lat2 lon2 t1 t2 d r2 st,
      st.cache (cacheKey lat1 lon1) = none →
      cacheKey lat2 lon2 = cacheKey lat1 lon1 →
      0 ≤ t2 - t1 → t2 - t1 < OPENMETEO_CACHE_TTL →
      (fetch_openmeteo lat1 lon1 t1 (some d) st).1 = some d ∧
      (fetch_openmeteo lat2 lon2 t2 r2
        (fetch_openmeteo lat1 lon1 t1 (some d) st).2).1 = some d ∧
      (fetch_openmeteo lat2 lon2 t2 r2
        (fetch_openmeteo lat1 lon1 t1 (some d) st).2).2.remoteCalls =
        st.remoteCalls + 1) := by
  have hfresh : ∀ lat lon now r st e, st.cache (cacheKey lat lon) = some e →
      now - e.cached_at < OPENMETEO_CACHE_TTL →
      fetch_openmeteo lat lon now r st = (some e.data, st) := by
    intro lat lon now r st e he hage
    unfold fetch_openmeteo
    simp only [he, if_pos hage]
  refine ⟨hfresh, ?_, ?_, ?_⟩
  · intro lat lon now r st e he hage
    unfold fetch_openmeteo
    simp only [he, if_neg (not_lt.mpr hage)]
    cases r <;> rfl
  · intro lat lon now d st hstale
    unfold fetch_openmeteo
    cases he : st.cache (cacheKey lat lon) with
    | none => simp [he]
    | some e => simp [he, not_lt.mpr (hstale e he)]
  · intro lat1 lon1 lat2 lon2 t1 t2 d r2 st hnone hkey h0 hlt
    have h1 : fetch_openmeteo lat1 lon1 t1 (some d) st =
        (some d,
         { cache := fun k => if k = cacheKey lat1 lon1 then some ⟨d, t1⟩
             else st.cache k
           remoteCalls := st.remoteCalls + 1 }) := by
      unfold fetch_openmeteo
      simp only [hnone]
    have hc : (OMState.mk
        (fun k => if k = cacheKey lat1 lon1 then some ⟨d, t1⟩ else st.cache k)
        (st.remoteCalls + 1)).cache (cacheKey lat2 lon2) =
        some (OMEntry.mk d t1) := by
      simp [hkey]
    have h2 := hfresh lat2 lon2 t2 r2 _ (OMEntry.mk d t1) hc
      (show t2 - (OMEntry.mk d t1).cached_at < OPENMETEO_CACHE_TTL from hlt)
    refine ⟨by rw [h1], ?_, ?_⟩
    · rw [h1, h2]
    · rw [h1, h2]

/-- Witness for C6: two fetches at `t = 0` and `t = 1800` for the same cell
starting from the empty cache perform one remote call in total. -/
theorem C6_cache_ttl_witness :
    (fetch_openmeteo 1 1 0 (some 7) ⟨fun _ => none, 0⟩).1 = some 7 ∧
    (fetch_openmeteo 1 1 1800 none
      (fetch_openmeteo 1 1 0 (some 7) ⟨fun _ => none, 0⟩).2).1 = some 7 ∧
    (fetch_openmeteo 1 1 1800 none
      (fetch_openmeteo 1 1 0 (some 7) ⟨fun _ => none, 0⟩).2).2.remoteCalls =
      0 + 1 :=
  C6_cache_ttl.2.2.2 1 1 1 1 0 1800 7 none ⟨fun _ => none, 0⟩
    rfl rfl (by norm_num) (by norm_num [OPENMETEO_CACHE_TTL])

/-! ## The scheduler counts (claim C8) -/

lemma lookupCount_noaa (a b c d e : ℕ) :
    lookupCount "noaa"
      [("noaa", a), ("stormglass", b), ("openweather", c), ("tides", d),
       ("metno", e)] = a := rfl

lemma lookupCount_stormglass (a b c d e : ℕ) :
    lookupCount "stormglass"
      [("noaa", a), ("stormglass", b), ("openweather", c), ("tides", d),
       ("metno", e)] = b := rfl

lemma lookupCount_openweather (a b c d e : ℕ) :
    lookupCount "openweather"
      [("noaa", a), ("stormglass", b), ("openweather", c), ("tides", d),
       ("metno", e)] = c := rfl

lemma lookupCount_tides (a b c d e : ℕ) :
    lookupCount "tides"
      [("noaa", a), ("stormglass", b), ("openweather", c), ("tides", d),
       ("metno", e)] = d := rfl

lemma lookupCount_metno (a b c d e : ℕ) :
    lookupCount "metno"
      [("noaa", a), ("stormglass", b), ("openweather", c), ("tides", d),
       ("metno", e)] = e := rfl

/-- One accumulation step in closed form. -/
lemma addCounts_step (a b c d e : ℕ) (r : IngestOutcomes) :
    addCounts
      [("noaa", a), ("stormglass", b), ("openweather", c), ("tides", d),
       ("metno", e)] (ingest_location r) =
      [("noaa", a + sourceCount r.noaa),
       ("stormglass", b + sourceCount r.stormglass),
       ("openweather", c + sourceCount r.openweather),
       ("tides", d + sourceCount r.tides),
       ("metno", e + sourceCount r.metno)] := by
  simp only [addCounts, ingest_location, List.map_cons, List.map_nil,
    lookupCount_noaa, lookupCount_stormglass, lookupCount_openweather,
    lookupCount_tides, lookupCount_metno]

/-- The totals of a cycle in closed form, for any starting accumulator. -/
lemma run_full_ingestion_aux (locs : List IngestOutcomes) (a b c d e : ℕ) :
    locs.foldl (fun tot r => addCounts tot (ingest_location r))
      [("noaa", a), ("stormglass", b), ("openweather", c), ("tides", d),
       ("metno", e)] =
      [("noaa", a + (locs.map fun r => sourceCount r.noaa).sum),
       ("stormglass", b + (locs.map fun r => sourceCount r.stormglass).sum),
       ("openweather", c + (locs.map fun r => sourceCount r.openweather).sum),
       ("tides", d + (locs.map fun r => sourceCount r.tides).sum),
       ("metno", e + (locs.map fun r => sourceCount r.metno).sum)] := by
  induction locs generalizing a b c d e with
  | nil => simp
  | cons r t ih =>
    simp only [List.foldl_cons, addCounts_step, ih, List.map_cons,
      List.sum_cons]
    simp [Nat.add_assoc]

/-- C8: for every processed location the counts dict contains all five
sources; a raising ingester contributes exactly 0 while a returning ingester
contributes its return value; and over a full cycle every location is
processed, each source total being the sum of that source's per-location
counts - so one ingester's failure affects neither sibling sources nor other
locations. -/
theorem C8_ingestion_isolation (locs : List IngestOutcomes) (r : IngestOutcomes) :
    ((ingest_location r).map Prod.fst = ingestSources) ∧
    (∀ er, sourceCount (.error er) = 0) ∧
    (∀ n, sourceCount (.ok n) = n) ∧
    ((run_full_ingestion locs).map Prod.fst = ingestSources) ∧
    lookupCount "noaa" (run_full_ingestion locs) =
      (locs.map fun q => sourceCount q.noaa).sum ∧
    lookupCount "stormglass" (run_full_ingestion locs) =
      (locs.map fun q => sourceCount q.stormglass).sum ∧
    lookupCount "openweather" (run_full_ingestion locs) =
      (locs.map fun q => sourceCount q.openweather).sum ∧
    lookupCount "tides" (run_full_ingestion locs) =
      (locs.map fun q => sourceCount q.tides).sum ∧
    lookupCount "metno" (run_full_ingestion locs) =
      (locs.map fun q => sourceCount q.metno).sum := by
  have hrun : run_full_ingestion locs =
      [("noaa", (locs.map fun q => sourceCount q.noaa).sum),
       ("stormglass", (locs.map fun q => sourceCount q.stormglass).sum),
       ("openweather", (locs.map fun q => sourceCount q.openweather).sum),
       ("tides", (locs.map fun q => sourceCount q.tides).sum),
       ("metno", (locs.map fun q => sourceCount q.metno).sum)] := by
    rw [run_full_ingestion, initTotals, run_full_ingestion_aux]
    simp
  refine ⟨rfl, fun _ => rfl, fun _ => rfl, ?_, ?_, ?_, ?_, ?_, ?_⟩ <;>
    rw [hrun] <;>
    first
      | rfl
      | rw [lookupCount_noaa]
      | rw [lookupCount_stormglass]
      | rw [lookupCount_openweather]
      | rw [lookupCount_tides]
      | rw [lookupCount_metno]

/-! ## The health endpoint status code (claim C7) -/

/-- Unfolding of the `all(all_services)` test into the ten ok flags. -/
lemma allServicesOk_iff (inp : HealthInputs) :
    allServicesOk inp = true ↔
      ((unpackProbe inp.stormglass).ok = true ∧
       (unpackProbe inp.openweather).ok = true ∧
       (unpackProbe inp.worldtides).ok = true ∧
       (unpackProbe inp.metno).ok = true ∧
       (unpackProbe inp.noaa_erddap).ok = true ∧
       (unpackProbe inp.noaa_gfs).ok = true ∧
       (unpackProbe inp.era5).ok = true ∧
       (unpackProbe inp.openmeteo).ok = true ∧
       (unpackProbe inp.copernicus).ok = true ∧
       dbOk inp.dbProbe = true) := by
  simp [allServicesOk, healthServices, and_assoc]

/-- C7, against the code as written: the status field is `ok` iff all nine
provider probes and the database probe report ok - that half of the claim
holds - but the HTTP status code actually sent is always 200, because line
699's `status_code = 207 if overall_status == "degraded" else 200` is computed
into a local that the subsequent `return response` never uses. At the
degraded input the body says `degraded`, the intended code is 207, and the
response still goes out as 200, contradicting the claim and the endpoint's own
docstring (`207 Multi-Status if some services degraded`). -/
theorem C7_health_status_bug :
    (∀ inp : HealthInputs, ((health_check inp).1.status = "ok" ↔
      ((unpackProbe inp.stormglass).ok = true ∧
       (unpackProbe inp.openweather).ok = true ∧
       (unpackProbe inp.worldtides).ok = true ∧
       (unpackProbe inp.metno).ok = true ∧
       (unpackProbe inp.noaa_erddap).ok = true ∧
       (unpackProbe inp.noaa_gfs).ok = true ∧
       (unpackProbe inp.era5).ok = true ∧
       (unpackProbe inp.openmeteo).ok = true ∧
       (unpackProbe inp.copernicus).ok = true ∧
       dbOk inp.dbProbe = true))) ∧
    (∀ inp : HealthInputs, (health_check inp).1.status = "ok" ∨
      (health_check inp).1.status = "degraded") ∧
    (∀ inp : HealthInputs, (health_check inp).2 = 200) ∧
    (health_check degradedInput).1.status = "degraded" ∧
    intended_status_code (health_check degradedInput).1.status = 207 ∧
    (health_check degradedInput).2 = 200 := by
  refine ⟨?_, ?_, fun inp => rfl, by decide, by decide, by decide⟩
  · intro inp
    rw [show (health_check inp).1.status =
        if allServicesOk inp then "ok" else "degraded" from rfl,
      ← allServicesOk_iff inp]
    cases h : allServicesOk inp <;> simp [h]
  · intro inp
    rw [show (health_check inp).1.status =
        if allServicesOk inp then "ok" else "degraded" from rfl]
    cases h : allServicesOk inp <;> simp [h]

/-! ## The conditions phrase (claim C9) -/

/-- The wave reports of the boundary input: the single value 1 m. -/
lemma windBoundary_waves :
    wave_heights (unpackAll windBoundaryInput) = [1] := rfl

/-- The wind reports of the boundary input: the single value
`15 / 1.94384 m/s`. -/
lemma windBoundary_winds :
    wind_speeds (unpackAll windBoundaryInput) = [93750/12149] := by
  have hne : (93750/12149 : ℚ) ≠ 0 := by norm_num
  simp [wind_speeds, unpackAll, windBoundaryInput, unpackResult, truthyVal, hne]

/-- Counterexample to C9 as stated: at a mean wind speed of exactly 15 knots
the claim's buckets (`moderate for 10-15`, `strong above 15`) put the wind in
the moderate bucket, since 15 is not above 15; the code's `wind_kts < 15`
branch yields `strong wind` instead. -/
theorem C9_counterexample :
    mean (wind_speeds (unpackAll windBoundaryInput)) * MS_TO_KTS = 15 ∧
    specWindBucket 15 = "moderate" ∧ ¬((15 : ℚ) > 15) ∧
    ((get_global_forecast 0 0 windBoundaryInput).1.map fun r =>
      r.summary.conditions) = .ok "2-3ft waves, strong wind" := by
  refine ⟨?_, by norm_num [specWindBucket], by norm_num, ?_⟩
  · rw [windBoundary_winds]
    norm_num [mean, MS_TO_KTS]
  · rw [get_global_forecast, if_neg (by norm_num)]
    simp only [Except.map, buildResponse, windBoundary_waves,
      windBoundary_winds]
    norm_num [conditionsText, mean, sizeDesc, windDesc, M_TO_FT, MS_TO_KTS]
    rfl

/-- C9 as amended: whenever both a mean wave height and a mean wind speed
exist, the conditions string is the wave bucket and the wind bucket joined as
`"{size} waves, {wind}"`, with half-open wave buckets (`Small` below 2 ft,
`2-3ft` for 2 to 4, `4-5ft` for 4 to 6, `6-7ft` for 6 to 8, `Nft+` with N the
truncated feet at or above 8) and wind buckets `calm` below 5 kt, `light wind`
for 5 to 10, `moderate wind` for 10 to 15, and `strong wind` at or above
15 kt. -/
theorem C9_conditions (lat lon : ℚ) (inp : FetchOutcomes)
    (hlat : -90 ≤ lat ∧ lat ≤ 90) (hlon : -180 ≤ lon ∧ lon ≤ 180)
    (hw : wave_heights (unpackAll inp) ≠ [])
    (hs : wind_speeds (unpackAll inp) ≠ []) :
    ∃ r, (get_global_forecast lat lon inp).1 = .ok r ∧
      r.summary.conditions =
        sizeDesc (mean (wave_heights (unpackAll inp)) * M_TO_FT) ++
          " waves, " ++
          windDesc (mean (wind_speeds (unpackAll inp)) * MS_TO_KTS) ∧
      (∀ wft : ℚ, (wft < 2 → sizeDesc wft = "Small") ∧
        (2 ≤ wft → wft < 4 → sizeDesc wft = "2-3ft") ∧
        (4 ≤ wft → wft < 6 → sizeDesc wft = "4-5ft") ∧
        (6 ≤ wft → wft < 8 → sizeDesc wft = "6-7ft") ∧
        (8 ≤ wft → sizeDesc wft = toString (pyInt wft) ++ "ft+")) ∧
      (∀ kts : ℚ, (kts < 5 → windDesc kts = "calm") ∧
        (5 ≤ kts → kts < 10 → windDesc kts = "light wind") ∧
        (10 ≤ kts → kts < 15 → windDesc kts = "moderate wind") ∧
        (15 ≤ kts → windDesc kts = "strong wind")) := by
  refine ⟨buildResponse (unpackAll inp), ?_, ?_, ?_, ?_⟩
  · rw [get_global_forecast, if_neg (by tauto)]
  · simp only [buildResponse, conditionsText]
    rw [if_neg (by rintro (h | h) <;> [exact hw h; exact hs h])]
  · intro wft
    refine ⟨?_, ?_, ?_, ?_, ?_⟩ <;> unfold sizeDesc
    · intro h1
      rw [if_pos h1]
    · intro h1 h2
      rw [if_neg (by linarith), if_pos h2]
    · intro h1 h2
      rw [if_neg (by linarith), if_neg (by linarith), if_pos h2]
    · intro h1 h2
      rw [if_neg (by linarith), if_neg (by linarith), if_neg (by linarith),
        if_pos h2]
    · intro h1
      rw [if_neg (by linarith), if_neg (by linarith), if_neg (by linarith),
        if_neg (by linarith)]
  · intro kts
    refine ⟨?_, ?_, ?_, ?_⟩ <;> unfold windDesc
    · intro h1
      rw [if_pos h1]
    · intro h1 h2
      rw [if_neg (by linarith), if_pos h2]
    · intro h1 h2
      rw [if_neg (by linarith), if_neg (by linarith), if_pos h2]
    · intro h1
      rw [if_neg (by linarith), if_neg (by linarith), if_neg (by linarith)]

/-- Witness for C9 as amended at a concrete input (mean wave 1 m, mean wind
exactly 15 kt). -/
theorem C9_conditions_witness :
    ∃ r, (get_global_forecast 0 0 windBoundaryInput).1 = .ok r ∧
      r.summary.conditions =
        sizeDesc (mean (wave_heights (unpackAll windBoundaryInput)) * M_TO_FT) ++
          " waves, " ++
          windDesc (mean (wind_speeds (unpackAll windBoundaryInput)) * MS_TO_KTS) ∧
      (∀ wft : ℚ, (wft < 2 → sizeDesc wft = "Small") ∧
        (2 ≤ wft → wft < 4 → sizeDesc wft = "2-3ft") ∧
        (4 ≤ wft → wft < 6 → sizeDesc wft = "4-5ft") ∧
        (6 ≤ wft → wft < 8 → sizeDesc wft = "6-7ft") ∧
        (8 ≤ wft → sizeDesc wft = toString (pyInt wft) ++ "ft+")) ∧
      (∀ kts : ℚ, (kts < 5 → windDesc kts = "calm") ∧
        (5 ≤ kts → kts < 10 → windDesc kts = "light wind") ∧
        (10 ≤ kts → kts < 15 → windDesc kts = "moderate wind") ∧
        (15 ≤ kts → windDesc kts = "strong wind")) :=
  C9_conditions 0 0 windBoundaryInput (by norm_num) (by norm_num)
    (by rw [windBoundary_waves]; simp)
    (by rw [windBoundary_winds]; simp)
end SwellSense
